import Mathlib

/-!
Shallow embedding of the strix browser tool module
(`strix/tools/browser/browser_actions.py` and
`strix/tools/browser/storage_state_handler.py`).

JSON-like Python values are modelled by `JValue` (floats as rationals,
scoped to ASCII text).  Python dicts are association lists with
first-occurrence lookup.  Exceptions are modelled by the `Exc` type and
fallible code returns `Except Exc _`.
-/

/-- Python/JSON values: `None`, booleans, ints, floats (as rationals),
strings, lists and dicts. -/
inductive JValue where
  | null
  | bool (b : Bool)
  | int (n : Int)
  | float (q : ℚ)
  | str (s : String)
  | arr (xs : List JValue)
  | dict (entries : List (String × JValue))

/-- A Python dict, as an association list (first occurrence wins). -/
abbrev Dict := List (String × JValue)

/-- `d.get(k)` / `k in d`: first value bound to `k`, if any. -/
def dictGet (d : Dict) (k : String) : Option JValue :=
  (d.find? (fun p => p.1 == k)).map (fun p => p.2)

/-- `d.get(k, v)`: lookup with default. -/
def dictGetD (d : Dict) (k : String) (v : JValue) : JValue :=
  (dictGet d k).getD v

/-- Python exception classes relevant to this module. -/
inductive Exc where
  | valueError (msg : String)
  | runtimeError (msg : String)
  | fileNotFoundError (msg : String)
  | other (msg : String)
deriving DecidableEq

/-- The message (`str(e)`) carried by an exception. -/
def Exc.msg : Exc → String
  | .valueError m => m
  | .runtimeError m => m
  | .fileNotFoundError m => m
  | .other m => m

/- ASCII character helpers (Python `str.lower` / `str.capitalize` /
`str.strip`, scoped to ASCII). -/

/-- Apply a character substitution table, leaving unlisted characters
unchanged. -/
def tableMap (t : List (Char × Char)) (c : Char) : Char :=
  match t.find? (fun p => p.1 == c) with
  | some p => p.2
  | none => c

/-- The ASCII uppercase-to-lowercase table. -/
def lcPairs : List (Char × Char) :=
  [('A','a'), ('B','b'), ('C','c'), ('D','d'), ('E','e'), ('F','f'),
   ('G','g'), ('H','h'), ('I','i'), ('J','j'), ('K','k'), ('L','l'),
   ('M','m'), ('N','n'), ('O','o'), ('P','p'), ('Q','q'), ('R','r'),
   ('S','s'), ('T','t'), ('U','u'), ('V','v'), ('W','w'), ('X','x'),
   ('Y','y'), ('Z','z')]

/-- The ASCII lowercase-to-uppercase table. -/
def ucPairs : List (Char × Char) :=
  [('a','A'), ('b','B'), ('c','C'), ('d','D'), ('e','E'), ('f','F'),
   ('g','G'), ('h','H'), ('i','I'), ('j','J'), ('k','K'), ('l','L'),
   ('m','M'), ('n','N'), ('o','O'), ('p','P'), ('q','Q'), ('r','R'),
   ('s','S'), ('t','T'), ('u','U'), ('v','V'), ('w','W'), ('x','X'),
   ('y','Y'), ('z','Z')]

/-- ASCII lowercasing of one character (Python `str.lower`, ASCII range). -/
def lowerChar (c : Char) : Char := tableMap lcPairs c

/-- ASCII uppercasing of one character (Python `str.upper`, ASCII range). -/
def upperChar (c : Char) : Char := tableMap ucPairs c

/-- Whitespace characters removed by Python `str.strip()`. -/
def isWs (c : Char) : Bool :=
  c == ' ' || c == '\t' || c == '\n' || c == '\r' || c == '\x0b' || c == '\x0c'

/-- Strip leading and trailing whitespace from a character list. -/
def wsStrip (l : List Char) : List Char :=
  ((l.dropWhile isWs).reverse.dropWhile isWs).reverse

/-- Python `s.strip()` (ASCII whitespace). -/
def pyStrip (s : String) : String := ⟨wsStrip s.data⟩

/-- Python `s.lower()` (ASCII range). -/
def pyLower (s : String) : String := ⟨s.data.map lowerChar⟩

/-- First character uppercased, the rest lowercased. -/
def capList : List Char → List Char
  | [] => []
  | c :: r => upperChar c :: r.map lowerChar

/-- Python `s.capitalize()` (ASCII range). -/
def pyCapitalize (s : String) : String := ⟨capList s.data⟩

/-- Python `s.isdigit()`: non-empty and all decimal digits (ASCII). -/
def pyIsDigit (s : String) : Bool :=
  !s.data.isEmpty && s.data.all Char.isDigit

/-- Decimal value of a digit string (`int(s)` for an `isdigit` string). -/
def digitsToNat (l : List Char) : Nat :=
  l.foldl (fun n c => n * 10 + (c.toNat - 48)) 0

/-- `int(s)` on an `isdigit` string. -/
def strToInt (s : String) : Int := Int.ofNat (digitsToNat s.data)

/-- Python `int(x)` on a float: truncation toward zero. -/
def pyTrunc (q : ℚ) : Int := if 0 ≤ q then ⌊q⌋ else ⌈q⌉

/-- Python `x == 0` for a `JValue` (`0`, `0.0` and `False` all equal `0`). -/
def pyEqZero : JValue → Bool
  | .int n => n == 0
  | .float q => q == 0
  | .bool b => !b
  | _ => false

/- storage_state_handler.py -/

/-- `same_site_map.get(normalized_same_site)`: the five-entry alias dict in
`_normalize_cookie`, `{lax: Lax, strict: Strict, none: None,
no_restriction: None, unspecified: Lax}`. -/
def sameSiteLookup (k : String) : Option String :=
  if k = "lax" then some "Lax"
  else if k = "strict" then some "Strict"
  else if k = "none" then some "None"
  else if k = "no_restriction" then some "None"
  else if k = "unspecified" then some "Lax"
  else none

/-- The `expires` transformation inside `_normalize_cookie`: digit strings
and floats are coerced to ints. -/
def normalizeExpiresVal (expires : JValue) : JValue :=
  match expires with
  | .str s => if pyIsDigit s then .int (strToInt s) else .str s
  | .float q => .int (pyTrunc q)
  | v => v

/-- The `sameSite` transformation inside `_normalize_cookie`. -/
def normalizeSameSite (same_site : Option JValue) : JValue :=
  match same_site with
  | some (.str s) =>
    let ns := pyLower (pyStrip s)
    if ns = "" then JValue.str "Lax"
    else
      match sameSiteLookup ns with
      | some v => JValue.str v
      | none => JValue.str (pyCapitalize s)
  | _ => JValue.str "Lax"

/-- The full `expires` computation of `_normalize_cookie`: coercion followed
by the `0 → -1` session-cookie remap. -/
def normalizeExpires (expires0 : JValue) : JValue :=
  let expires1 := normalizeExpiresVal expires0
  if pyEqZero expires1 then JValue.int (-1) else expires1

/-- `StorageStateHandler._normalize_cookie`: normalize one cookie dict to
Playwright shape. -/
def _normalize_cookie (cookie : Dict) : Dict :=
  let expiresV :=
    normalizeExpires (dictGetD cookie "expires" (dictGetD cookie "expirationDate" (.int (-1))))
  [("name", dictGetD cookie "name" (.str "")),
   ("value", dictGetD cookie "value" (.str "")),
   ("domain", dictGetD cookie "domain" (.str "")),
   ("path", dictGetD cookie "path" (.str "/")),
   ("httpOnly", dictGetD cookie "httpOnly" (.bool false)),
   ("secure", dictGetD cookie "secure" (.bool false)),
   ("expires", expiresV),
   ("sameSite", normalizeSameSite (dictGet cookie "sameSite"))]

/-- `StorageStateHandler._detect_format`. -/
def _detect_format (data : JValue) : String :=
  match data with
  | .dict entries =>
    match dictGet entries "cookies" with
    | some (.arr _) => "playwright"
    | _ => "unknown"
  | .arr items =>
    match items with
    | .dict first :: _ =>
      if (dictGet first "name").isSome && (dictGet first "value").isSome then
        "cookie_array"
      else "unknown"
    | _ => "unknown"
  | _ => "unknown"

/-- `_normalize_cookie` lifted to a `JValue` element of a cookies list: a
non-dict element makes the Python attribute access `cookie.get` fail. -/
def normCookieJ : JValue → Except Exc JValue
  | .dict d => .ok (.dict (_normalize_cookie d))
  | _ => .error (.other "AttributeError: get")

/-- The list comprehension `[_normalize_cookie(cookie) for cookie in cookies]`:
left-to-right, the first exception propagates. -/
def normCookies : List JValue → Except Exc (List JValue)
  | [] => .ok []
  | c :: rest =>
    match normCookieJ c with
    | .error e => .error e
    | .ok nc =>
      match normCookies rest with
      | .error e => .error e
      | .ok ncs => .ok (nc :: ncs)

/-- `StorageStateHandler._convert_cookie_array_to_playwright`. -/
def _convert_cookie_array_to_playwright (cookies : List JValue) : Except Exc JValue :=
  (normCookies cookies).map
    (fun cs => JValue.dict [("cookies", .arr cs), ("origins", .arr [])])

/-- The unsupported-format error message in `_auto_convert_to_playwright`. -/
def unsupported_format_msg : String :=
  "Unsupported cookie format. Supported formats:\n" ++
  "  - Playwright storage_state (native)\n" ++
  "  - Cookie-Editor JSON export\n" ++
  "  - EditThisCookie JSON export\n" ++
  "  - JSON array of cookies"

/-- `StorageStateHandler._auto_convert_to_playwright`. -/
def _auto_convert_to_playwright (data : JValue) : Except Exc JValue :=
  let format_type := _detect_format data
  if format_type = "playwright" then
    match data with
    | .dict entries =>
      match dictGetD entries "cookies" (.arr []) with
      | .arr xs =>
        (normCookies xs).map
          (fun cs => JValue.dict
            [("cookies", .arr cs),
             ("origins", dictGetD entries "origins" (.arr []))])
      | _ => .error (.other "TypeError: not iterable")
    | _ => .error (.other "unreachable")
  else if format_type = "cookie_array" then
    match data with
    | .arr items => _convert_cookie_array_to_playwright items
    | _ => .error (.other "unreachable")
  else
    .error (.valueError unsupported_format_msg)

/-- The outcome of reading and JSON-parsing a file path. -/
inductive FileRead where
  | missing
  | invalidJson (emsg : String)
  | parsed (v : JValue)

/-- `StorageStateHandler.load_storage_state`, parameterized by what reading
the file yields. -/
def load_storage_state (state_path : String) (file : FileRead) : Except Exc JValue :=
  match file with
  | .missing => .error (.fileNotFoundError ("Storage state file not found: " ++ state_path))
  | .invalidJson emsg =>
    .error (.runtimeError ("Storage state file is not valid JSON: " ++ emsg))
  | .parsed raw_data =>
    match _auto_convert_to_playwright raw_data with
    | .ok state => .ok state
    | .error e => .error (.runtimeError ("Storage state load failed: " ++ e.msg))

/- browser_actions.py -/

/-- One backend (`BrowserTabManager`) method invocation, with its
arguments. -/
inductive Call where
  | launch_browser (url : Option String)
  | goto_url (url : String) (tab_id : Option String)
  | back (tab_id : Option String)
  | forward (tab_id : Option String)
  | click (coordinate : String) (tab_id : Option String)
  | double_click (coordinate : String) (tab_id : Option String)
  | hover (coordinate : String) (tab_id : Option String)
  | scroll (direction : String) (tab_id : Option String)
  | type_text (text : String) (tab_id : Option String)
  | press_key (k : String) (tab_id : Option String)
  | new_tab (url : Option String)
  | switch_tab (tab_id : String)
  | close_tab (tab_id : String)
  | list_tabs
  | wait_browser (duration : ℚ) (tab_id : Option String)
  | execute_js (js_code : String) (tab_id : Option String)
  | save_pdf (file_path : String) (tab_id : Option String)
  | get_console_logs (tab_id : Option String) (clear : Bool)
  | view_source (tab_id : Option String)
  | close_browser
  | export_session (file_path : String)
deriving DecidableEq

/-- An action result: a Python dict. -/
abbrev Res := Dict

/-- The backend: each method call either returns a result dict or raises. -/
abbrev Manager := Call → Except Exc Res

/-- A dispatcher outcome paired with the trace of backend calls made. -/
abbrev Traced := List Call × Except Exc Res

/-- Invoke one backend method, recording the call. -/
def invoke (m : Manager) (c : Call) : Traced := ([c], m c)

/-- A raised exception before any backend call. -/
def raised (e : Exc) : Traced := ([], .error e)

/-- `_validate_url`. -/
def _validate_url (action_name : String) (url : Option String) : Except Exc Unit :=
  match url with
  | some s =>
    if s = "" then .error (.valueError ("url parameter is required for " ++ action_name ++ " action"))
    else .ok ()
  | none => .error (.valueError ("url parameter is required for " ++ action_name ++ " action"))

/-- `_validate_coordinate`. -/
def _validate_coordinate (action_name : String) (coordinate : Option String) : Except Exc Unit :=
  match coordinate with
  | some s =>
    if s = "" then .error (.valueError ("coordinate parameter is required for " ++ action_name ++ " action"))
    else .ok ()
  | none => .error (.valueError ("coordinate parameter is required for " ++ action_name ++ " action"))

/-- `_validate_text`. -/
def _validate_text (action_name : String) (text : Option String) : Except Exc Unit :=
  match text with
  | some s =>
    if s = "" then .error (.valueError ("text parameter is required for " ++ action_name ++ " action"))
    else .ok ()
  | none => .error (.valueError ("text parameter is required for " ++ action_name ++ " action"))

/-- `_validate_tab_id`. -/
def _validate_tab_id (action_name : String) (tab_id : Option String) : Except Exc Unit :=
  match tab_id with
  | some s =>
    if s = "" then .error (.valueError ("tab_id parameter is required for " ++ action_name ++ " action"))
    else .ok ()
  | none => .error (.valueError ("tab_id parameter is required for " ++ action_name ++ " action"))

/-- `_validate_js_code`. -/
def _validate_js_code (action_name : String) (js_code : Option String) : Except Exc Unit :=
  match js_code with
  | some s =>
    if s = "" then .error (.valueError ("js_code parameter is required for " ++ action_name ++ " action"))
    else .ok ()
  | none => .error (.valueError ("js_code parameter is required for " ++ action_name ++ " action"))

/-- `_validate_duration`: only absence is an error, `0` is legal. -/
def _validate_duration (action_name : String) (duration : Option ℚ) : Except Exc Unit :=
  match duration with
  | none => .error (.valueError ("duration parameter is required for " ++ action_name ++ " action"))
  | some _ => .ok ()

/-- `_validate_key`. -/
def _validate_key (action_name : String) (k : Option String) : Except Exc Unit :=
  match k with
  | some s =>
    if s = "" then .error (.valueError ("key parameter is required for " ++ action_name ++ " action"))
    else .ok ()
  | none => .error (.valueError ("key parameter is required for " ++ action_name ++ " action"))

/-- `_validate_file_path`. -/
def _validate_file_path (action_name : String) (file_path : Option String) : Except Exc Unit :=
  match file_path with
  | some s =>
    if s = "" then .error (.valueError ("file_path parameter is required for " ++ action_name ++ " action"))
    else .ok ()
  | none => .error (.valueError ("file_path parameter is required for " ++ action_name ++ " action"))

/-- `_handle_navigation_actions`. -/
def _handle_navigation_actions (m : Manager) (action : String)
    (url : Option String) (tab_id : Option String) : Traced :=
  if action = "launch" then invoke m (.launch_browser url)
  else if action = "goto" then
    match _validate_url action url, url with
    | .error e, _ => raised e
    | .ok _, some u => invoke m (.goto_url u tab_id)
    | .ok _, none => raised (.other "AssertionError")
  else if action = "back" then invoke m (.back tab_id)
  else if action = "forward" then invoke m (.forward tab_id)
  else raised (.valueError ("Unknown navigation action: " ++ action))

/-- `_handle_interaction_actions`. -/
def _handle_interaction_actions (m : Manager) (action : String)
    (coordinate : Option String) (text : Option String) (k : Option String)
    (tab_id : Option String) : Traced :=
  if action = "click" ∨ action = "double_click" ∨ action = "hover" then
    match _validate_coordinate action coordinate, coordinate with
    | .error e, _ => raised e
    | .ok _, some c =>
      invoke m (if action = "click" then .click c tab_id
                else if action = "double_click" then .double_click c tab_id
                else .hover c tab_id)
    | .ok _, none => raised (.other "AssertionError")
  else if action = "scroll_down" ∨ action = "scroll_up" then
    invoke m (.scroll (if action = "scroll_down" then "down" else "up") tab_id)
  else if action = "type" then
    match _validate_text action text, text with
    | .error e, _ => raised e
    | .ok _, some t => invoke m (.type_text t tab_id)
    | .ok _, none => raised (.other "AssertionError")
  else if action = "press_key" then
    match _validate_key action k, k with
    | .error e, _ => raised e
    | .ok _, some s => invoke m (.press_key s tab_id)
    | .ok _, none => raised (.other "AssertionError")
  else raised (.valueError ("Unknown interaction action: " ++ action))

/-- `_handle_tab_actions`. -/
def _handle_tab_actions (m : Manager) (action : String)
    (url : Option String) (tab_id : Option String) : Traced :=
  if action = "new_tab" then invoke m (.new_tab url)
  else if action = "switch_tab" then
    match _validate_tab_id action tab_id, tab_id with
    | .error e, _ => raised e
    | .ok _, some t => invoke m (.switch_tab t)
    | .ok _, none => raised (.other "AssertionError")
  else if action = "close_tab" then
    match _validate_tab_id action tab_id, tab_id with
    | .error e, _ => raised e
    | .ok _, some t => invoke m (.close_tab t)
    | .ok _, none => raised (.other "AssertionError")
  else if action = "list_tabs" then invoke m .list_tabs
  else raised (.valueError ("Unknown tab action: " ++ action))

/-- `_handle_utility_actions`. -/
def _handle_utility_actions (m : Manager) (action : String)
    (duration : Option ℚ) (js_code : Option String) (file_path : Option String)
    (tab_id : Option String) (clear : Bool) : Traced :=
  if action = "wait" then
    match _validate_duration action duration, duration with
    | .error e, _ => raised e
    | .ok _, some d => invoke m (.wait_browser d tab_id)
    | .ok _, none => raised (.other "AssertionError")
  else if action = "execute_js" then
    match _validate_js_code action js_code, js_code with
    | .error e, _ => raised e
    | .ok _, some j => invoke m (.execute_js j tab_id)
    | .ok _, none => raised (.other "AssertionError")
  else if action = "save_pdf" then
    match _validate_file_path action file_path, file_path with
    | .error e, _ => raised e
    | .ok _, some fp => invoke m (.save_pdf fp tab_id)
    | .ok _, none => raised (.other "AssertionError")
  else if action = "get_console_logs" then invoke m (.get_console_logs tab_id clear)
  else if action = "view_source" then invoke m (.view_source tab_id)
  else if action = "close" then invoke m .close_browser
  else raised (.valueError ("Unknown utility action: " ++ action))

/-- The navigation action group set. -/
def navigation_actions : List String := ["launch", "goto", "back", "forward"]

/-- The interaction action group set. -/
def interaction_actions : List String :=
  ["click", "type", "double_click", "hover", "press_key", "scroll_down", "scroll_up"]

/-- The tab-management action group set. -/
def tab_actions : List String := ["new_tab", "switch_tab", "close_tab", "list_tabs"]

/-- The utility action group set. -/
def utility_actions : List String :=
  ["wait", "execute_js", "save_pdf", "get_console_logs", "view_source", "close"]

/-- The fixed 22-name action vocabulary (`BrowserAction`). -/
def browserActionVocabulary : List String :=
  ["launch", "goto", "click", "type", "scroll_down", "scroll_up", "back",
   "forward", "new_tab", "switch_tab", "close_tab", "wait", "execute_js",
   "double_click", "hover", "press_key", "save_pdf", "get_console_logs",
   "view_source", "close", "list_tabs", "export_session"]

/-- The body of the `try` block of `browser_action`. -/
def browser_action_try (m : Manager) (action : String)
    (url coordinate text tab_id js_code : Option String)
    (duration : Option ℚ) (k file_path : Option String) (clear : Bool) : Traced :=
  if action ∈ navigation_actions then
    _handle_navigation_actions m action url tab_id
  else if action ∈ interaction_actions then
    _handle_interaction_actions m action coordinate text k tab_id
  else if action ∈ tab_actions then
    _handle_tab_actions m action url tab_id
  else if action ∈ utility_actions then
    _handle_utility_actions m action duration js_code file_path tab_id clear
  else if action = "export_session" then
    match _validate_file_path action file_path, file_path with
    | .error e, _ => raised e
    | .ok _, some fp => invoke m (.export_session fp)
    | .ok _, none => raised (.other "AssertionError")
  else raised (.valueError ("Unknown action: " ++ action))

/-- `tab_id` as the JSON value stored in a failure record. -/
def jOptStr : Option String → JValue
  | none => .null
  | some s => .str s

/-- The failure record built by the `except` clause of `browser_action`. -/
def failure_result (msg : String) (tab_id : Option String) : Res :=
  [("error", .str msg), ("tab_id", jOptStr tab_id),
   ("screenshot", .str ""), ("is_running", .bool false)]

/-- `browser_action`: dispatch, catching `ValueError` and `RuntimeError`
into a structured failure record; other exceptions propagate. -/
def browser_action (m : Manager) (action : String)
    (url coordinate text tab_id js_code : Option String)
    (duration : Option ℚ) (k file_path : Option String) (clear : Bool) : Traced :=
  match browser_action_try m action url coordinate text tab_id js_code duration k file_path clear with
  | (calls, .ok res) => (calls, .ok res)
  | (calls, .error (.valueError msg)) => (calls, .ok (failure_result msg tab_id))
  | (calls, .error (.runtimeError msg)) => (calls, .ok (failure_result msg tab_id))
  | (calls, .error e) => (calls, .error e)

/-! ### Character-level lemmas -/

theorem tableMap_cases (t : List (Char × Char)) (c : Char) :
    tableMap t c = c ∨ ∃ p ∈ t, p.1 = c ∧ tableMap t c = p.2 := by
  unfold tableMap
  cases h : t.find? (fun p => p.1 == c) with
  | none => exact Or.inl rfl
  | some p =>
    refine Or.inr ⟨p, List.mem_of_find?_eq_some h, ?_, rfl⟩
    have hb := List.find?_some h
    exact eq_of_beq hb

theorem lowerChar_cases (c : Char) :
    lowerChar c = c ∨ ∃ p ∈ lcPairs, p.1 = c ∧ lowerChar c = p.2 :=
  tableMap_cases lcPairs c

theorem upperChar_cases (c : Char) :
    upperChar c = c ∨ ∃ p ∈ ucPairs, p.1 = c ∧ upperChar c = p.2 :=
  tableMap_cases ucPairs c

theorem lowerChar_fixed : ∀ p ∈ lcPairs, lowerChar p.2 = p.2 := by decide

theorem lowerChar_idem (c : Char) : lowerChar (lowerChar c) = lowerChar c := by
  rcases lowerChar_cases c with h | ⟨p, hp, _, he⟩
  · rw [h]; exact h
  · rw [he]; exact lowerChar_fixed p hp

theorem lowerChar_upperChar (c : Char) : lowerChar (upperChar c) = lowerChar c := by
  rcases upperChar_cases c with h | ⟨p, hp, hc, he⟩
  · rw [h]
  · rw [he, ← hc]
    exact (by decide : ∀ p ∈ ucPairs, lowerChar p.2 = lowerChar p.1) p hp

theorem upperChar_idem (c : Char) : upperChar (upperChar c) = upperChar c := by
  rcases upperChar_cases c with h | ⟨p, hp, _, he⟩
  · rw [h]; exact h
  · rw [he]
    exact (by decide : ∀ p ∈ ucPairs, upperChar p.2 = p.2) p hp

theorem isWs_lowerChar (c : Char) : isWs (lowerChar c) = isWs c := by
  rcases lowerChar_cases c with h | ⟨p, hp, hc, he⟩
  · rw [h]
  · rw [he, ← hc]
    exact (by decide : ∀ p ∈ lcPairs, isWs p.2 = isWs p.1) p hp

/-! ### String-level lemmas -/

theorem isWs_comp_lowerChar : isWs ∘ lowerChar = isWs := funext isWs_lowerChar

theorem lowerChar_comp_lowerChar : lowerChar ∘ lowerChar = lowerChar := funext lowerChar_idem

theorem wsStrip_map_lower (l : List Char) :
    wsStrip (l.map lowerChar) = (wsStrip l).map lowerChar := by
  unfold wsStrip
  rw [List.dropWhile_map, isWs_comp_lowerChar, ← List.map_reverse,
    List.dropWhile_map, isWs_comp_lowerChar, ← List.map_reverse]

theorem map_lower_capList (ld : List Char) :
    (capList ld).map lowerChar = ld.map lowerChar := by
  cases ld with
  | nil => rfl
  | cons c r =>
    simp only [capList, List.map_cons, List.map_map, lowerChar_comp_lowerChar,
      lowerChar_upperChar c]

theorem capList_idem (ld : List Char) : capList (capList ld) = capList ld := by
  cases ld with
  | nil => rfl
  | cons c r =>
    simp only [capList, List.map_map, lowerChar_comp_lowerChar, upperChar_idem c]

theorem pyCapitalize_idem (s : String) :
    pyCapitalize (pyCapitalize s) = pyCapitalize s :=
  congrArg String.mk (capList_idem s.data)

theorem strip_lower_capitalize (s : String) :
    pyLower (pyStrip (pyCapitalize s)) = pyLower (pyStrip s) := by
  refine congrArg String.mk ?_
  show (wsStrip (capList s.data)).map lowerChar = (wsStrip s.data).map lowerChar
  rw [← wsStrip_map_lower, ← wsStrip_map_lower, map_lower_capList]

theorem sameSiteLookup_mem (k v : String) (h : sameSiteLookup k = some v) :
    v = "Lax" ∨ v = "Strict" ∨ v = "None" := by
  unfold sameSiteLookup at h
  repeat' split at h
  all_goals simp_all

theorem normalizeSameSite_str (s : String) :
    normalizeSameSite (some (.str s)) =
      (if pyLower (pyStrip s) = "" then JValue.str "Lax"
       else match sameSiteLookup (pyLower (pyStrip s)) with
            | some v => JValue.str v
            | none => JValue.str (pyCapitalize s)) := rfl

theorem normalizeSameSite_idem (x : Option JValue) :
    normalizeSameSite (some (normalizeSameSite x)) = normalizeSameSite x := by
  have hlax : normalizeSameSite (some (.str "Lax")) = .str "Lax" := rfl
  rcases x with _ | v
  · exact hlax
  rcases v with _ | b | n | q | s | xs | e
  case str =>
    rw [normalizeSameSite_str s]
    by_cases hns : pyLower (pyStrip s) = ""
    · rw [if_pos hns]; exact hlax
    · rw [if_neg hns]
      cases hl : sameSiteLookup (pyLower (pyStrip s)) with
      | some v =>
        show normalizeSameSite (some (.str v)) = .str v
        rcases sameSiteLookup_mem _ _ hl with rfl | rfl | rfl <;> rfl
      | none =>
        show normalizeSameSite (some (.str (pyCapitalize s))) = .str (pyCapitalize s)
        rw [normalizeSameSite_str (pyCapitalize s), strip_lower_capitalize s,
          if_neg hns, hl]
        exact congrArg JValue.str (pyCapitalize_idem s)
  all_goals exact hlax

theorem normalizeExpiresVal_idem (e : JValue) :
    normalizeExpiresVal (normalizeExpiresVal e) = normalizeExpiresVal e := by
  rcases e with _ | b | n | q | s | xs | d <;> try rfl
  by_cases hd : pyIsDigit s = true
  all_goals
    show normalizeExpiresVal (if pyIsDigit s then JValue.int (strToInt s) else .str s) =
      (if pyIsDigit s then JValue.int (strToInt s) else .str s)
  · rw [if_pos hd]; rfl
  · rw [if_neg hd]
    show (if pyIsDigit s then JValue.int (strToInt s) else .str s) = JValue.str s
    rw [if_neg hd]

theorem normalizeExpires_idem (e : JValue) :
    normalizeExpires (normalizeExpires e) = normalizeExpires e := by
  unfold normalizeExpires
  by_cases hz : pyEqZero (normalizeExpiresVal e) = true
  · rw [if_pos hz]
    rfl
  · rw [if_neg hz, normalizeExpiresVal_idem, if_neg hz]

/-! ### Cookie-record lemmas -/

theorem normalize_cookie_get_expires (cookie : Dict) :
    dictGet (_normalize_cookie cookie) "expires" =
      some (normalizeExpires
        (dictGetD cookie "expires" (dictGetD cookie "expirationDate" (.int (-1))))) := rfl

theorem normalize_cookie_get_sameSite (cookie : Dict) :
    dictGet (_normalize_cookie cookie) "sameSite" =
      some (normalizeSameSite (dictGet cookie "sameSite")) := rfl

theorem normalize_cookie_idem (d : Dict) :
    _normalize_cookie (_normalize_cookie d) = _normalize_cookie d := by
  calc _normalize_cookie (_normalize_cookie d)
      = [("name", dictGetD d "name" (.str "")),
         ("value", dictGetD d "value" (.str "")),
         ("domain", dictGetD d "domain" (.str "")),
         ("path", dictGetD d "path" (.str "/")),
         ("httpOnly", dictGetD d "httpOnly" (.bool false)),
         ("secure", dictGetD d "secure" (.bool false)),
         ("expires", normalizeExpires (normalizeExpires
            (dictGetD d "expires" (dictGetD d "expirationDate" (.int (-1)))))),
         ("sameSite", normalizeSameSite (some (normalizeSameSite
            (dictGet d "sameSite"))))] := rfl
    _ = _normalize_cookie d := by
        rw [normalizeExpires_idem, normalizeSameSite_idem]
        rfl

/-! ### Claim theorems: storage state -/

/-- C10: for every dict input, `_normalize_cookie` returns a record with
exactly the eight canonical keys, in order; any other key of the source
cookie is dropped. -/
theorem normalize_cookie_exact_keys (cookie : Dict) :
    (_normalize_cookie cookie).map Prod.fst =
      ["name", "value", "domain", "path", "httpOnly", "secure", "expires", "sameSite"] := rfl

/-- C5: `sameSite` normalization maps `"Lax"` to Lax, `"STRICT"` to Strict,
`"no_restriction"` to None, `""` to Lax, an absent or non-string value to
Lax, and any other non-empty (after strip/lower) unrecognized string to its
capitalization, e.g. `"custom_value"` to `"Custom_value"`. -/
theorem normalize_cookie_sameSite_spec :
    (dictGet (_normalize_cookie [("sameSite", .str "Lax")]) "sameSite" = some (.str "Lax")) ∧
    (dictGet (_normalize_cookie [("sameSite", .str "STRICT")]) "sameSite" = some (.str "Strict")) ∧
    (dictGet (_normalize_cookie [("sameSite", .str "no_restriction")]) "sameSite" = some (.str "None")) ∧
    (dictGet (_normalize_cookie [("sameSite", .str "")]) "sameSite" = some (.str "Lax")) ∧
    (∀ cookie : Dict, dictGet cookie "sameSite" = none →
       dictGet (_normalize_cookie cookie) "sameSite" = some (.str "Lax")) ∧
    (∀ (cookie : Dict) (v : JValue), dictGet cookie "sameSite" = some v →
       (∀ s, v ≠ .str s) →
       dictGet (_normalize_cookie cookie) "sameSite" = some (.str "Lax")) ∧
    (∀ s : String, pyLower (pyStrip s) ≠ "" →
       sameSiteLookup (pyLower (pyStrip s)) = none →
       normalizeSameSite (some (.str s)) = .str (pyCapitalize s)) ∧
    (dictGet (_normalize_cookie [("sameSite", .str "custom_value")]) "sameSite" =
       some (.str "Custom_value")) := by
  refine ⟨rfl, rfl, rfl, rfl, ?_, ?_, ?_, rfl⟩
  · intro cookie h
    rw [normalize_cookie_get_sameSite, h]
    rfl
  · intro cookie v h hs
    rw [normalize_cookie_get_sameSite, h]
    rcases v with _ | b | n | q | s | xs | e <;>
      first
        | rfl
        | exact absurd rfl (hs _)
  · intro s hns hl
    rw [normalizeSameSite_str, if_neg hns, hl]

/-- Witness for C5's conditional clauses at concrete inputs. -/
theorem normalize_cookie_sameSite_spec_witness :
    dictGet (_normalize_cookie [("foo", .int 1)]) "sameSite" = some (.str "Lax") ∧
    dictGet (_normalize_cookie [("sameSite", .int 5)]) "sameSite" = some (.str "Lax") ∧
    normalizeSameSite (some (.str "custom_value")) = .str (pyCapitalize "custom_value") :=
  ⟨normalize_cookie_sameSite_spec.2.2.2.2.1 _ rfl,
   normalize_cookie_sameSite_spec.2.2.2.2.2.1 _ (.int 5) rfl (fun s h => JValue.noConfusion h),
   normalize_cookie_sameSite_spec.2.2.2.2.2.2.1 "custom_value" (by decide) rfl⟩

/-- C6: `expires` is read from `"expires"` with `"expirationDate"` as
fallback and `-1` as default; digit strings and floats are coerced to
integers; a resulting `0` is remapped to `-1`; concrete examples as in the
spec. -/
theorem normalize_cookie_expires_spec :
    (∀ cookie : Dict, dictGet cookie "expires" = none →
       dictGet cookie "expirationDate" = none →
       dictGet (_normalize_cookie cookie) "expires" = some (.int (-1))) ∧
    (∀ (cookie : Dict) (s : String), dictGet cookie "expires" = some (.str s) →
       pyIsDigit s = true →
       dictGet (_normalize_cookie cookie) "expires" =
         some (.int (if strToInt s = 0 then -1 else strToInt s))) ∧
    (∀ (cookie : Dict) (q : ℚ), dictGet cookie "expires" = some (.float q) →
       dictGet (_normalize_cookie cookie) "expires" =
         some (.int (if pyTrunc q = 0 then -1 else pyTrunc q))) ∧
    (∀ (cookie : Dict) (v : JValue), dictGet cookie "expires" = none →
       dictGet cookie "expirationDate" = some v →
       dictGet (_normalize_cookie cookie) "expires" = some (normalizeExpires v)) ∧
    (dictGet (_normalize_cookie [("expirationDate", .int 0)]) "expires" = some (.int (-1))) ∧
    (dictGet (_normalize_cookie [("expires", .str "12345")]) "expires" = some (.int 12345)) ∧
    (dictGet (_normalize_cookie [("expirationDate", .float 12345)]) "expires" =
       some (.int 12345)) := by
  refine ⟨?_, ?_, ?_, ?_, rfl, rfl, rfl⟩
  · intro cookie h1 h2
    rw [normalize_cookie_get_expires, dictGetD, dictGetD, h1, h2]
    rfl
  · intro cookie s h hd
    rw [normalize_cookie_get_expires, dictGetD, h]
    show some (normalizeExpires (.str s)) = _
    unfold normalizeExpires
    simp only [normalizeExpiresVal, hd, if_true, pyEqZero]
    by_cases hz : strToInt s = 0
    · simp [hz]
    · simp [hz]
  · intro cookie q h
    rw [normalize_cookie_get_expires, dictGetD, h]
    show some (normalizeExpires (.float q)) = _
    unfold normalizeExpires
    simp only [normalizeExpiresVal, pyEqZero]
    by_cases hz : pyTrunc q = 0
    · simp [hz]
    · simp [hz]
  · intro cookie v h1 h2
    rw [normalize_cookie_get_expires, dictGetD, dictGetD, h1, h2]
    rfl

/-- Witness for C6's conditional clauses at concrete inputs. -/
theorem normalize_cookie_expires_spec_witness :
    dictGet (_normalize_cookie [("foo", .int 9)]) "expires" = some (.int (-1)) ∧
    dictGet (_normalize_cookie [("expires", .str "0")]) "expires" =
      some (.int (if strToInt "0" = 0 then -1 else strToInt "0")) ∧
    dictGet (_normalize_cookie [("expires", .float (5/2))]) "expires" =
      some (.int (if pyTrunc (5/2) = 0 then -1 else pyTrunc (5/2))) ∧
    dictGet (_normalize_cookie [("expirationDate", .bool true)]) "expires" =
      some (normalizeExpires (.bool true)) :=
  ⟨normalize_cookie_expires_spec.1 _ rfl rfl,
   normalize_cookie_expires_spec.2.1 _ "0" rfl (by decide),
   normalize_cookie_expires_spec.2.2.1 _ (5/2) rfl,
   normalize_cookie_expires_spec.2.2.2.1 _ (.bool true) rfl rfl⟩

/-- C4 counterexample: the normalized `sameSite` is not always one of the
three canonical values: `"custom_value"` is passed through capitalized. -/
theorem normalize_cookie_sameSite_not_always_canonical :
    ¬ (∀ cookie : Dict, ∃ v, dictGet (_normalize_cookie cookie) "sameSite" = some v ∧
        (v = .str "Lax" ∨ v = .str "Strict" ∨ v = .str "None")) := by
  intro h
  obtain ⟨v, hv, hc⟩ := h [("sameSite", .str "custom_value")]
  have he : dictGet (_normalize_cookie [("sameSite", .str "custom_value")]) "sameSite" =
      some (.str "Custom_value") := rfl
  rw [he] at hv
  obtain rfl : JValue.str "Custom_value" = v := Option.some.inj hv
  rcases hc with hc | hc | hc <;>
    exact absurd (congrArg (fun x => match x with | JValue.str s => s | _ => "") hc)
      (by decide)

/-- C4 amended: the normalized `sameSite` is always a string, and is either
one of the three canonical values Lax, Strict, None, or the capitalization
of an unrecognized source string. -/
theorem normalize_cookie_sameSite_canonical_or_capitalized (cookie : Dict) :
    ∃ v : String, dictGet (_normalize_cookie cookie) "sameSite" = some (.str v) ∧
      (v = "Lax" ∨ v = "Strict" ∨ v = "None" ∨
       ∃ s, dictGet cookie "sameSite" = some (.str s) ∧ v = pyCapitalize s) := by
  rw [normalize_cookie_get_sameSite]
  cases hss : dictGet cookie "sameSite" with
  | none => exact ⟨"Lax", rfl, Or.inl rfl⟩
  | some v0 =>
    rcases v0 with _ | b | n | q | s | xs | e
    case str =>
      rw [normalizeSameSite_str]
      by_cases hns : pyLower (pyStrip s) = ""
      · rw [if_pos hns]; exact ⟨"Lax", rfl, Or.inl rfl⟩
      · rw [if_neg hns]
        cases hl : sameSiteLookup (pyLower (pyStrip s)) with
        | some v =>
          refine ⟨v, rfl, ?_⟩
          rcases sameSiteLookup_mem _ _ hl with rfl | rfl | rfl
          · exact Or.inl rfl
          · exact Or.inr (Or.inl rfl)
          · exact Or.inr (Or.inr (Or.inl rfl))
        | none =>
          exact ⟨pyCapitalize s, rfl, Or.inr (Or.inr (Or.inr ⟨s, rfl, rfl⟩))⟩
    all_goals exact ⟨"Lax", rfl, Or.inl rfl⟩

/-! ### Claim theorems: format detection and loading -/

theorem ne_unknown_playwright : ("unknown" : String) ≠ "playwright" := by decide

theorem ne_cookie_array_playwright : ("cookie_array" : String) ≠ "playwright" := by decide

theorem ne_unknown_cookie_array : ("unknown" : String) ≠ "cookie_array" := by decide

theorem ne_playwright_cookie_array : ("playwright" : String) ≠ "cookie_array" := by decide

theorem detect_dict (entries : Dict) :
    _detect_format (.dict entries) =
      (match dictGet entries "cookies" with
       | some (.arr _) => "playwright"
       | _ => "unknown") := rfl

theorem detect_arr_dict (first : Dict) (tl : List JValue) :
    _detect_format (.arr (.dict first :: tl)) =
      (if ((dictGet first "name").isSome && (dictGet first "value").isSome) = true then
        "cookie_array"
       else "unknown") := rfl

/-- C7: `_detect_format` classifies a dict with a list-valued `"cookies"`
key as native (`"playwright"`), a list whose first element is a dict with
`"name"` and `"value"` keys as `"cookie_array"`, and anything else as
`"unknown"`; with the spec's three concrete examples. -/
theorem detect_format_spec (data : JValue) :
    (_detect_format data = "playwright" ↔
       ∃ entries xs, data = .dict entries ∧ dictGet entries "cookies" = some (.arr xs)) ∧
    (_detect_format data = "cookie_array" ↔
       ∃ first rest, data = .arr (.dict first :: rest) ∧
         (dictGet first "name").isSome = true ∧ (dictGet first "value").isSome = true) ∧
    (_detect_format data = "playwright" ∨ _detect_format data = "cookie_array" ∨
       _detect_format data = "unknown") ∧
    (_detect_format (.dict [("cookies", .arr [])]) = "playwright") ∧
    (_detect_format (.arr [.dict [("name", .str "a"), ("value", .str "b")]]) = "cookie_array") ∧
    (_detect_format (.dict [("foo", .int 1)]) = "unknown") := by
  refine ⟨⟨?_, ?_⟩, ⟨?_, ?_⟩, ?_, rfl, rfl, rfl⟩
  · intro h
    rcases data with _ | b | n | q | s | items | entries
    case dict =>
      rw [detect_dict] at h
      cases hc : dictGet entries "cookies" with
      | none => rw [hc] at h; exact absurd h ne_unknown_playwright
      | some v =>
        rw [hc] at h
        rcases v with _ | b | n | q | s | xs | e
        case arr => exact ⟨entries, xs, rfl, hc⟩
        all_goals exact absurd h ne_unknown_playwright
    case arr =>
      rcases items with _ | ⟨hd, tl⟩
      · exact absurd h ne_unknown_playwright
      rcases hd with _ | b | n | q | s | xs | first
      case dict =>
        rw [detect_arr_dict] at h
        by_cases hb : ((dictGet first "name").isSome && (dictGet first "value").isSome) = true
        · rw [if_pos hb] at h; exact absurd h ne_cookie_array_playwright
        · rw [if_neg hb] at h; exact absurd h ne_unknown_playwright
      all_goals exact absurd h ne_unknown_playwright
    all_goals exact absurd h ne_unknown_playwright
  · rintro ⟨entries, xs, rfl, hc⟩
    rw [detect_dict, hc]
  · intro h
    rcases data with _ | b | n | q | s | items | entries
    case dict =>
      rw [detect_dict] at h
      cases hc : dictGet entries "cookies" with
      | none => rw [hc] at h; exact absurd h ne_unknown_cookie_array
      | some v =>
        rw [hc] at h
        rcases v with _ | b | n | q | s | xs | e <;>
          first
            | exact absurd h ne_unknown_cookie_array
            | exact absurd h ne_playwright_cookie_array
    case arr =>
      rcases items with _ | ⟨hd, tl⟩
      · exact absurd h ne_unknown_cookie_array
      rcases hd with _ | b | n | q | s | xs | first
      case dict =>
        rw [detect_arr_dict] at h
        by_cases hb : ((dictGet first "name").isSome && (dictGet first "value").isSome) = true
        · rw [Bool.and_eq_true] at hb
          exact ⟨first, tl, rfl, hb.1, hb.2⟩
        · rw [if_neg hb] at h; exact absurd h ne_unknown_cookie_array
      all_goals exact absurd h ne_unknown_cookie_array
    all_goals exact absurd h ne_unknown_cookie_array
  · rintro ⟨first, rest, rfl, hn, hv⟩
    rw [detect_arr_dict, hn, hv]
    rfl
  · rcases data with _ | b | n | q | s | items | entries
    case dict =>
      rw [detect_dict]
      cases dictGet entries "cookies" with
      | none => right; right; rfl
      | some v =>
        rcases v with _ | b | n | q | s | xs | e
        case arr => left; rfl
        all_goals right; right; rfl
    case arr =>
      rcases items with _ | ⟨hd, tl⟩
      · right; right; rfl
      rcases hd with _ | b | n | q | s | xs | first
      case dict =>
        rw [detect_arr_dict]
        by_cases hb : ((dictGet first "name").isSome && (dictGet first "value").isSome) = true
        · rw [if_pos hb]; right; left; rfl
        · rw [if_neg hb]; right; right; rfl
      all_goals right; right; rfl
    all_goals right; right; rfl

/-- Witness for C7's conditional clauses at concrete inputs. -/
theorem detect_format_spec_witness :
    _detect_format (.dict [("cookies", .arr [.int 3])]) = "playwright" ∧
    _detect_format (.arr [.dict [("name", .null), ("value", .null)], .int 0]) = "cookie_array" :=
  ⟨(detect_format_spec _).1.mpr ⟨[("cookies", .arr [.int 3])], [.int 3], rfl, rfl⟩,
   (detect_format_spec _).2.1.mpr ⟨[("name", .null), ("value", .null)], [.int 0], rfl, rfl, rfl⟩⟩

theorem auto_convert_unknown (v : JValue) (h : _detect_format v = "unknown") :
    _auto_convert_to_playwright v = .error (.valueError unsupported_format_msg) := by
  unfold _auto_convert_to_playwright
  rw [h]
  rfl

theorem load_parsed (path : String) (v : JValue) :
    load_storage_state path (.parsed v) =
      (match _auto_convert_to_playwright v with
       | .ok state => .ok state
       | .error e => .error (.runtimeError ("Storage state load failed: " ++ e.msg))) := rfl

/-- C9: loading fails three distinct ways: missing file, malformed JSON
(distinct from the missing-file error), and unsupported format with a
message enumerating the supported formats. -/
theorem load_storage_state_errors :
    (∀ path : String, load_storage_state path .missing =
       .error (.fileNotFoundError ("Storage state file not found: " ++ path))) ∧
    (∀ path emsg : String, load_storage_state path (.invalidJson emsg) =
       .error (.runtimeError ("Storage state file is not valid JSON: " ++ emsg))) ∧
    (∀ (path : String) (v : JValue), _detect_format v = "unknown" →
       load_storage_state path (.parsed v) =
         .error (.runtimeError ("Storage state load failed: " ++ unsupported_format_msg))) ∧
    (∀ path emsg : String,
       Exc.fileNotFoundError ("Storage state file not found: " ++ path) ≠
         Exc.runtimeError ("Storage state file is not valid JSON: " ++ emsg)) ∧
    (∀ path : String,
       Exc.fileNotFoundError ("Storage state file not found: " ++ path) ≠
         Exc.runtimeError ("Storage state load failed: " ++ unsupported_format_msg)) ∧
    (∀ emsg : String,
       ("Storage state file is not valid JSON: " ++ emsg) ≠
         ("Storage state load failed: " ++ unsupported_format_msg)) := by
  refine ⟨fun path => rfl, fun path emsg => rfl, ?_, ?_, ?_, ?_⟩
  · intro path v h
    rw [load_parsed, auto_convert_unknown v h]
    rfl
  · intro path emsg h
    exact Exc.noConfusion h
  · intro path h
    exact Exc.noConfusion h
  · intro emsg h
    have hd := congrArg String.data h
    rw [String.data_append] at hd
    have h14 : ("Storage state file is not valid JSON: ".data ++ emsg.data)[14]? =
        ("Storage state load failed: " ++ unsupported_format_msg).data[14]? :=
      congrArg (fun l => l[14]?) hd
    rw [List.getElem?_append_left (by decide), String.data_append,
      List.getElem?_append_left (by decide)] at h14
    exact absurd h14 (by decide)

/-- Witness for C9's conditional clause at a concrete input. -/
theorem load_storage_state_errors_witness :
    load_storage_state "s.json" (.parsed (.int 3)) =
      .error (.runtimeError ("Storage state load failed: " ++ unsupported_format_msg)) :=
  load_storage_state_errors.2.2.1 "s.json" (.int 3) rfl

/-! ### Claim theorems: native-format idempotence -/

theorem normCookies_cons (c : JValue) (rest : List JValue) :
    normCookies (c :: rest) =
      (match normCookieJ c with
       | .error e => .error e
       | .ok nc =>
         match normCookies rest with
         | .error e => .error e
         | .ok ncs => .ok (nc :: ncs)) := rfl

theorem normCookieJ_ok (c nc : JValue) (h : normCookieJ c = .ok nc) :
    ∃ d, c = .dict d ∧ nc = .dict (_normalize_cookie d) := by
  rcases c with _ | b | n | q | s | xs | d
  case dict => exact ⟨d, rfl, (Except.ok.inj h).symm⟩
  all_goals exact Except.noConfusion h

theorem normCookieJ_idem (c nc : JValue) (h : normCookieJ c = .ok nc) :
    normCookieJ nc = .ok nc := by
  obtain ⟨d, rfl, rfl⟩ := normCookieJ_ok c nc h
  show Except.ok (JValue.dict (_normalize_cookie (_normalize_cookie d))) = _
  rw [normalize_cookie_idem]

theorem normCookies_idem (xs cs : List JValue) (h : normCookies xs = .ok cs) :
    normCookies cs = .ok cs := by
  induction xs generalizing cs with
  | nil =>
    obtain rfl : ([] : List JValue) = cs := Except.ok.inj h
    rfl
  | cons c rest ih =>
    rw [normCookies_cons] at h
    cases hc : normCookieJ c with
    | error e => rw [hc] at h; exact Except.noConfusion h
    | ok nc =>
      rw [hc] at h
      cases hr : normCookies rest with
      | error e => rw [hr] at h; exact Except.noConfusion h
      | ok ncs =>
        rw [hr] at h
        have h' : Except.ok (nc :: ncs) = (Except.ok cs : Except Exc (List JValue)) := h
        obtain rfl := Except.ok.inj h'
        rw [normCookies_cons, normCookieJ_idem c nc hc, ih ncs hr]

theorem auto_convert_playwright (entries : Dict) (xs : List JValue)
    (hc : dictGet entries "cookies" = some (.arr xs)) :
    _auto_convert_to_playwright (.dict entries) =
      (normCookies xs).map (fun cs => JValue.dict
        [("cookies", .arr cs), ("origins", dictGetD entries "origins" (.arr []))]) := by
  have hcd : dictGetD entries "cookies" (.arr []) = .arr xs := by
    rw [dictGetD, hc]
    rfl
  unfold _auto_convert_to_playwright
  rw [detect_dict, hc]
  show (match dictGetD entries "cookies" (.arr []) with
        | JValue.arr xs =>
          Except.map
            (fun cs => JValue.dict
              [("cookies", JValue.arr cs),
               ("origins", dictGetD entries "origins" (JValue.arr []))])
            (normCookies xs)
        | _ => Except.error (Exc.other "TypeError: not iterable")) = _
  rw [hcd]

/-- C8: on a native-format document (a dict whose `"cookies"` value is a
list), a successful `_auto_convert_to_playwright` is idempotent, and the
result carries `"origins"` through unchanged. -/
theorem auto_convert_native_idem (entries : Dict) (st : JValue)
    (hdet : _detect_format (.dict entries) = "playwright")
    (h : _auto_convert_to_playwright (.dict entries) = .ok st) :
    _auto_convert_to_playwright st = .ok st ∧
    ∃ cs, st = .dict [("cookies", .arr cs),
                      ("origins", dictGetD entries "origins" (.arr []))] := by
  obtain ⟨entries', xs, heq, hc⟩ := (detect_format_spec (.dict entries)).1.mp hdet
  obtain rfl : entries = entries' := JValue.dict.inj heq
  rw [auto_convert_playwright entries xs hc] at h
  cases hxs : normCookies xs with
  | error e => rw [hxs] at h; exact Except.noConfusion h
  | ok cs =>
    rw [hxs] at h
    have h' : Except.ok (JValue.dict [("cookies", .arr cs),
        ("origins", dictGetD entries "origins" (.arr []))]) =
        (Except.ok st : Except Exc JValue) := h
    obtain rfl := Except.ok.inj h'
    refine ⟨?_, cs, rfl⟩
    rw [auto_convert_playwright
          [("cookies", .arr cs), ("origins", dictGetD entries "origins" (.arr []))] cs rfl,
        normCookies_idem xs cs hxs]
    rfl

/-- Witness for C8 at a concrete native document. -/
theorem auto_convert_native_idem_witness :
    _auto_convert_to_playwright
        (.dict [("cookies", .arr [.dict (_normalize_cookie [])]),
                ("origins", .arr [.int 7])]) =
      .ok (.dict [("cookies", .arr [.dict (_normalize_cookie [])]),
                  ("origins", .arr [.int 7])]) :=
  (auto_convert_native_idem [("cookies", .arr [.dict []]), ("origins", .arr [.int 7])]
    (.dict [("cookies", .arr [.dict (_normalize_cookie [])]), ("origins", .arr [.int 7])])
    rfl rfl).1

/-! ### Claim theorems: action dispatcher -/

/-- C2: for every action with required parameters, omitting that parameter
(absent, or empty under the truthiness policy; for `wait` only absence)
yields a failure result whose message names the parameter and the action,
and no backend method is called (empty call trace). -/
theorem browser_action_missing_param (m : Manager)
    (url coordinate text tab_id js_code : Option String)
    (duration : Option ℚ) (k file_path : Option String) (clear : Bool) :
    ((url = none ∨ url = some "") →
       browser_action m "goto" url coordinate text tab_id js_code duration k file_path clear =
         ([], .ok (failure_result "url parameter is required for goto action" tab_id))) ∧
    ((coordinate = none ∨ coordinate = some "") →
       browser_action m "click" url coordinate text tab_id js_code duration k file_path clear =
         ([], .ok (failure_result "coordinate parameter is required for click action" tab_id))) ∧
    ((coordinate = none ∨ coordinate = some "") →
       browser_action m "double_click" url coordinate text tab_id js_code duration k file_path clear =
         ([], .ok (failure_result "coordinate parameter is required for double_click action" tab_id))) ∧
    ((coordinate = none ∨ coordinate = some "") →
       browser_action m "hover" url coordinate text tab_id js_code duration k file_path clear =
         ([], .ok (failure_result "coordinate parameter is required for hover action" tab_id))) ∧
    ((text = none ∨ text = some "") →
       browser_action m "type" url coordinate text tab_id js_code duration k file_path clear =
         ([], .ok (failure_result "text parameter is required for type action" tab_id))) ∧
    ((k = none ∨ k = some "") →
       browser_action m "press_key" url coordinate text tab_id js_code duration k file_path clear =
         ([], .ok (failure_result "key parameter is required for press_key action" tab_id))) ∧
    ((tab_id = none ∨ tab_id = some "") →
       browser_action m "switch_tab" url coordinate text tab_id js_code duration k file_path clear =
         ([], .ok (failure_result "tab_id parameter is required for switch_tab action" tab_id))) ∧
    ((tab_id = none ∨ tab_id = some "") →
       browser_action m "close_tab" url coordinate text tab_id js_code duration k file_path clear =
         ([], .ok (failure_result "tab_id parameter is required for close_tab action" tab_id))) ∧
    (duration = none →
       browser_action m "wait" url coordinate text tab_id js_code duration k file_path clear =
         ([], .ok (failure_result "duration parameter is required for wait action" tab_id))) ∧
    ((js_code = none ∨ js_code = some "") →
       browser_action m "execute_js" url coordinate text tab_id js_code duration k file_path clear =
         ([], .ok (failure_result "js_code parameter is required for execute_js action" tab_id))) ∧
    ((file_path = none ∨ file_path = some "") →
       browser_action m "save_pdf" url coordinate text tab_id js_code duration k file_path clear =
         ([], .ok (failure_result "file_path parameter is required for save_pdf action" tab_id))) ∧
    ((file_path = none ∨ file_path = some "") →
       browser_action m "export_session" url coordinate text tab_id js_code duration k file_path clear =
         ([], .ok (failure_result "file_path parameter is required for export_session action" tab_id))) := by
  refine ⟨?_, ?_, ?_, ?_, ?_, ?_, ?_, ?_, ?_, ?_, ?_, ?_⟩
  all_goals rintro (rfl | rfl) <;> rfl

/-- Witness for C2 at concrete inputs. -/
theorem browser_action_missing_param_witness :
    browser_action (fun _ => .ok []) "goto" none none none (some "t") none none none none false =
      ([], .ok (failure_result "url parameter is required for goto action" (some "t"))) ∧
    browser_action (fun _ => .ok []) "wait" none none none none none none none none false =
      ([], .ok (failure_result "duration parameter is required for wait action" none)) :=
  ⟨(browser_action_missing_param (fun _ => .ok []) none none none (some "t") none none none
      none false).1 (Or.inl rfl),
   (browser_action_missing_param (fun _ => .ok []) none none none none none none none
      none false).2.2.2.2.2.2.2.2.1 rfl⟩

theorem browser_action_ok_of_try (m : Manager) (action : String)
    (url coordinate text tab_id js_code : Option String)
    (duration : Option ℚ) (k file_path : Option String) (clear : Bool)
    (calls : List Call) (r : Res)
    (h : browser_action_try m action url coordinate text tab_id js_code duration k file_path clear =
      (calls, .ok r)) :
    browser_action m action url coordinate text tab_id js_code duration k file_path clear =
      (calls, .ok r) := by
  unfold browser_action
  rw [h]

/-- C1: validation errors and backend `ValueError`/`RuntimeError` are
converted into a failure record `{error, tab_id, screenshot: "",
is_running: False}` rather than propagated; only other exception kinds
propagate; an action name outside the fixed vocabulary yields a failure
record naming the action as unknown, with no backend call. -/
theorem browser_action_error_contract (m : Manager) (action : String)
    (url coordinate text tab_id js_code : Option String)
    (duration : Option ℚ) (k file_path : Option String) (clear : Bool) :
    (∀ msg : String,
       ((browser_action_try m action url coordinate text tab_id js_code duration k file_path clear).2 =
            .error (.valueError msg) ∨
        (browser_action_try m action url coordinate text tab_id js_code duration k file_path clear).2 =
            .error (.runtimeError msg)) →
       browser_action m action url coordinate text tab_id js_code duration k file_path clear =
         ((browser_action_try m action url coordinate text tab_id js_code duration k file_path clear).1,
          .ok (failure_result msg tab_id))) ∧
    (∀ e : Exc,
       (browser_action m action url coordinate text tab_id js_code duration k file_path clear).2 =
           .error e →
       ∃ msg, e = .other msg ∨ e = .fileNotFoundError msg) ∧
    (action ∉ browserActionVocabulary →
       browser_action m action url coordinate text tab_id js_code duration k file_path clear =
         ([], .ok (failure_result ("Unknown action: " ++ action) tab_id))) := by
  refine ⟨?_, ?_, ?_⟩
  · intro msg hmsg
    unfold browser_action
    cases htry : browser_action_try m action url coordinate text tab_id js_code duration k file_path clear with
    | mk calls r =>
      rw [htry] at hmsg
      rcases hmsg with hmsg | hmsg
      · obtain rfl : r = .error (.valueError msg) := hmsg
        rfl
      · obtain rfl : r = .error (.runtimeError msg) := hmsg
        rfl
  · intro e he
    unfold browser_action at he
    cases htry : browser_action_try m action url coordinate text tab_id js_code duration k file_path clear with
    | mk calls r =>
      rw [htry] at he
      rcases r with err | res
      case ok => exact Except.noConfusion (he : Except.ok res = Except.error e)
      case error =>
        rcases err with msg | msg | msg | msg
        case valueError => exact Except.noConfusion (he : Except.ok (failure_result msg tab_id) = Except.error e)
        case runtimeError => exact Except.noConfusion (he : Except.ok (failure_result msg tab_id) = Except.error e)
        case fileNotFoundError =>
          exact ⟨msg, Or.inr (Except.error.inj
            (he : Except.error (Exc.fileNotFoundError msg) = Except.error e)).symm⟩
        case other =>
          exact ⟨msg, Or.inl (Except.error.inj
            (he : Except.error (Exc.other msg) = Except.error e)).symm⟩
  · intro hv
    have h1 : action ∉ navigation_actions := fun hh =>
      hv ((by decide : ∀ a ∈ navigation_actions, a ∈ browserActionVocabulary) action hh)
    have h2 : action ∉ interaction_actions := fun hh =>
      hv ((by decide : ∀ a ∈ interaction_actions, a ∈ browserActionVocabulary) action hh)
    have h3 : action ∉ tab_actions := fun hh =>
      hv ((by decide : ∀ a ∈ tab_actions, a ∈ browserActionVocabulary) action hh)
    have h4 : action ∉ utility_actions := fun hh =>
      hv ((by decide : ∀ a ∈ utility_actions, a ∈ browserActionVocabulary) action hh)
    have h5 : action ≠ "export_session" := fun hh => by
      subst hh
      exact hv (by decide)
    unfold browser_action browser_action_try
    rw [if_neg h1, if_neg h2, if_neg h3, if_neg h4, if_neg h5]
    rfl

/-- Witness for C1 at concrete inputs: a backend `RuntimeError` is caught,
and an unknown action yields the unknown-action failure record. -/
theorem browser_action_error_contract_witness :
    browser_action (fun _ => .error (.runtimeError "boom")) "back"
        none none none (some "t") none none none none false =
      ([Call.back (some "t")], .ok (failure_result "boom" (some "t"))) ∧
    browser_action (fun _ => .ok []) "bogus"
        none none none (some "t") none none none none false =
      ([], .ok (failure_result ("Unknown action: " ++ "bogus") (some "t"))) :=
  ⟨(browser_action_error_contract (fun _ => .error (.runtimeError "boom")) "back"
      none none none (some "t") none none none none false).1 "boom" (Or.inr rfl),
   (browser_action_error_contract (fun _ => .ok []) "bogus"
      none none none (some "t") none none none none false).2.2 (by decide)⟩

theorem validate_url_ok (a u : String) (hu : u ≠ "") : _validate_url a (some u) = .ok () := by
  show (if u = "" then
      Except.error (Exc.valueError ("url parameter is required for " ++ a ++ " action"))
    else Except.ok ()) = Except.ok ()
  rw [if_neg hu]

theorem validate_coordinate_ok (a u : String) (hu : u ≠ "") :
    _validate_coordinate a (some u) = .ok () := by
  show (if u = "" then
      Except.error (Exc.valueError ("coordinate parameter is required for " ++ a ++ " action"))
    else Except.ok ()) = Except.ok ()
  rw [if_neg hu]

theorem validate_text_ok (a u : String) (hu : u ≠ "") : _validate_text a (some u) = .ok () := by
  show (if u = "" then
      Except.error (Exc.valueError ("text parameter is required for " ++ a ++ " action"))
    else Except.ok ()) = Except.ok ()
  rw [if_neg hu]

theorem validate_tab_id_ok (a u : String) (hu : u ≠ "") : _validate_tab_id a (some u) = .ok () := by
  show (if u = "" then
      Except.error (Exc.valueError ("tab_id parameter is required for " ++ a ++ " action"))
    else Except.ok ()) = Except.ok ()
  rw [if_neg hu]

theorem validate_js_code_ok (a u : String) (hu : u ≠ "") : _validate_js_code a (some u) = .ok () := by
  show (if u = "" then
      Except.error (Exc.valueError ("js_code parameter is required for " ++ a ++ " action"))
    else Except.ok ()) = Except.ok ()
  rw [if_neg hu]

theorem validate_key_ok (a u : String) (hu : u ≠ "") : _validate_key a (some u) = .ok () := by
  show (if u = "" then
      Except.error (Exc.valueError ("key parameter is required for " ++ a ++ " action"))
    else Except.ok ()) = Except.ok ()
  rw [if_neg hu]

theorem validate_file_path_ok (a u : String) (hu : u ≠ "") :
    _validate_file_path a (some u) = .ok () := by
  show (if u = "" then
      Except.error (Exc.valueError ("file_path parameter is required for " ++ a ++ " action"))
    else Except.ok ()) = Except.ok ()
  rw [if_neg hu]

theorem handle_goto (m : Manager) (u : String) (tab_id : Option String) (hu : u ≠ "") :
    _handle_navigation_actions m "goto" (some u) tab_id = invoke m (.goto_url u tab_id) := by
  unfold _handle_navigation_actions
  rw [validate_url_ok "goto" u hu]
  rfl

theorem handle_click (m : Manager) (c : String) (text k tab_id : Option String) (hc : c ≠ "") :
    _handle_interaction_actions m "click" (some c) text k tab_id =
      invoke m (.click c tab_id) := by
  unfold _handle_interaction_actions
  rw [validate_coordinate_ok "click" c hc]
  rfl

theorem handle_double_click (m : Manager) (c : String) (text k tab_id : Option String)
    (hc : c ≠ "") :
    _handle_interaction_actions m "double_click" (some c) text k tab_id =
      invoke m (.double_click c tab_id) := by
  unfold _handle_interaction_actions
  rw [validate_coordinate_ok "double_click" c hc]
  rfl

theorem handle_hover (m : Manager) (c : String) (text k tab_id : Option String) (hc : c ≠ "") :
    _handle_interaction_actions m "hover" (some c) text k tab_id =
      invoke m (.hover c tab_id) := by
  unfold _handle_interaction_actions
  rw [validate_coordinate_ok "hover" c hc]
  rfl

theorem handle_type (m : Manager) (coordinate : Option String) (t : String)
    (k tab_id : Option String) (ht : t ≠ "") :
    _handle_interaction_actions m "type" coordinate (some t) k tab_id =
      invoke m (.type_text t tab_id) := by
  unfold _handle_interaction_actions
  rw [validate_text_ok "type" t ht]
  rfl

theorem handle_press_key (m : Manager) (coordinate text : Option String) (s : String)
    (tab_id : Option String) (hs : s ≠ "") :
    _handle_interaction_actions m "press_key" coordinate text (some s) tab_id =
      invoke m (.press_key s tab_id) := by
  unfold _handle_interaction_actions
  rw [validate_key_ok "press_key" s hs]
  rfl

theorem handle_switch_tab (m : Manager) (url : Option String) (t : String) (ht : t ≠ "") :
    _handle_tab_actions m "switch_tab" url (some t) = invoke m (.switch_tab t) := by
  unfold _handle_tab_actions
  rw [validate_tab_id_ok "switch_tab" t ht]
  rfl

theorem handle_close_tab (m : Manager) (url : Option String) (t : String) (ht : t ≠ "") :
    _handle_tab_actions m "close_tab" url (some t) = invoke m (.close_tab t) := by
  unfold _handle_tab_actions
  rw [validate_tab_id_ok "close_tab" t ht]
  rfl

theorem handle_execute_js (m : Manager) (duration : Option ℚ) (j : String)
    (file_path tab_id : Option String) (clear : Bool) (hj : j ≠ "") :
    _handle_utility_actions m "execute_js" duration (some j) file_path tab_id clear =
      invoke m (.execute_js j tab_id) := by
  unfold _handle_utility_actions
  rw [validate_js_code_ok "execute_js" j hj]
  rfl

theorem handle_save_pdf (m : Manager) (duration : Option ℚ) (js_code : Option String)
    (fp : String) (tab_id : Option String) (clear : Bool) (hfp : fp ≠ "") :
    _handle_utility_actions m "save_pdf" duration js_code (some fp) tab_id clear =
      invoke m (.save_pdf fp tab_id) := by
  unfold _handle_utility_actions
  rw [validate_file_path_ok "save_pdf" fp hfp]
  rfl

theorem try_export_session (m : Manager)
    (url coordinate text tab_id js_code : Option String)
    (duration : Option ℚ) (k : Option String) (fp : String) (clear : Bool) (hfp : fp ≠ "") :
    browser_action_try m "export_session" url coordinate text tab_id js_code duration k
        (some fp) clear = invoke m (.export_session fp) := by
  unfold browser_action_try
  rw [validate_file_path_ok "export_session" fp hfp]
  rfl

/-- C3: for every action in the fixed vocabulary, calling `browser_action`
with the action's required parameters present reaches the corresponding
backend method exactly once (singleton call trace) and returns that
method's result unchanged; `wait` accepts `duration = 0`. -/
theorem browser_action_dispatch (m : Manager)
    (url coordinate text tab_id js_code : Option String)
    (duration : Option ℚ) (k file_path : Option String) (clear : Bool) (r : Res) :
    (m (.launch_browser url) = .ok r →
       browser_action m "launch" url coordinate text tab_id js_code duration k file_path clear =
         ([.launch_browser url], .ok r)) ∧
    (∀ u : String, u ≠ "" → m (.goto_url u tab_id) = .ok r →
       browser_action m "goto" (some u) coordinate text tab_id js_code duration k file_path clear =
         ([.goto_url u tab_id], .ok r)) ∧
    (m (.back tab_id) = .ok r →
       browser_action m "back" url coordinate text tab_id js_code duration k file_path clear =
         ([.back tab_id], .ok r)) ∧
    (m (.forward tab_id) = .ok r →
       browser_action m "forward" url coordinate text tab_id js_code duration k file_path clear =
         ([.forward tab_id], .ok r)) ∧
    (∀ c : String, c ≠ "" → m (.click c tab_id) = .ok r →
       browser_action m "click" url (some c) text tab_id js_code duration k file_path clear =
         ([.click c tab_id], .ok r)) ∧
    (∀ c : String, c ≠ "" → m (.double_click c tab_id) = .ok r →
       browser_action m "double_click" url (some c) text tab_id js_code duration k file_path clear =
         ([.double_click c tab_id], .ok r)) ∧
    (∀ c : String, c ≠ "" → m (.hover c tab_id) = .ok r →
       browser_action m "hover" url (some c) text tab_id js_code duration k file_path clear =
         ([.hover c tab_id], .ok r)) ∧
    (m (.scroll "down" tab_id) = .ok r →
       browser_action m "scroll_down" url coordinate text tab_id js_code duration k file_path clear =
         ([.scroll "down" tab_id], .ok r)) ∧
    (m (.scroll "up" tab_id) = .ok r →
       browser_action m "scroll_up" url coordinate text tab_id js_code duration k file_path clear =
         ([.scroll "up" tab_id], .ok r)) ∧
    (∀ t : String, t ≠ "" → m (.type_text t tab_id) = .ok r →
       browser_action m "type" url coordinate (some t) tab_id js_code duration k file_path clear =
         ([.type_text t tab_id], .ok r)) ∧
    (∀ s : String, s ≠ "" → m (.press_key s tab_id) = .ok r →
       browser_action m "press_key" url coordinate text tab_id js_code duration (some s) file_path clear =
         ([.press_key s tab_id], .ok r)) ∧
    (m (.new_tab url) = .ok r →
       browser_action m "new_tab" url coordinate text tab_id js_code duration k file_path clear =
         ([.new_tab url], .ok r)) ∧
    (∀ t : String, t ≠ "" → m (.switch_tab t) = .ok r →
       browser_action m "switch_tab" url coordinate text (some t) js_code duration k file_path clear =
         ([.switch_tab t], .ok r)) ∧
    (∀ t : String, t ≠ "" → m (.close_tab t) = .ok r →
       browser_action m "close_tab" url coordinate text (some t) js_code duration k file_path clear =
         ([.close_tab t], .ok r)) ∧
    (m .list_tabs = .ok r →
       browser_action m "list_tabs" url coordinate text tab_id js_code duration k file_path clear =
         ([.list_tabs], .ok r)) ∧
    (∀ d : ℚ, m (.wait_browser d tab_id) = .ok r →
       browser_action m "wait" url coordinate text tab_id js_code (some d) k file_path clear =
         ([.wait_browser d tab_id], .ok r)) ∧
    (∀ j : String, j ≠ "" → m (.execute_js j tab_id) = .ok r →
       browser_action m "execute_js" url coordinate text tab_id (some j) duration k file_path clear =
         ([.execute_js j tab_id], .ok r)) ∧
    (∀ fp : String, fp ≠ "" → m (.save_pdf fp tab_id) = .ok r →
       browser_action m "save_pdf" url coordinate text tab_id js_code duration k (some fp) clear =
         ([.save_pdf fp tab_id], .ok r)) ∧
    (m (.get_console_logs tab_id clear) = .ok r →
       browser_action m "get_console_logs" url coordinate text tab_id js_code duration k file_path clear =
         ([.get_console_logs tab_id clear], .ok r)) ∧
    (m (.view_source tab_id) = .ok r →
       browser_action m "view_source" url coordinate text tab_id js_code duration k file_path clear =
         ([.view_source tab_id], .ok r)) ∧
    (m .close_browser = .ok r →
       browser_action m "close" url coordinate text tab_id js_code duration k file_path clear =
         ([.close_browser], .ok r)) ∧
    (∀ fp : String, fp ≠ "" → m (.export_session fp) = .ok r →
       browser_action m "export_session" url coordinate text tab_id js_code duration k (some fp) clear =
         ([.export_session fp], .ok r)) := by
  refine ⟨?_, ?_, ?_, ?_, ?_, ?_, ?_, ?_, ?_, ?_, ?_, ?_, ?_, ?_, ?_, ?_, ?_, ?_, ?_, ?_, ?_, ?_⟩
  · intro h
    apply browser_action_ok_of_try
    show invoke m (.launch_browser url) = ([.launch_browser url], .ok r)
    rw [invoke, h]
  · intro u hu h
    apply browser_action_ok_of_try
    show _handle_navigation_actions m "goto" (some u) tab_id = ([.goto_url u tab_id], .ok r)
    rw [handle_goto m u tab_id hu, invoke, h]
  · intro h
    apply browser_action_ok_of_try
    show invoke m (.back tab_id) = ([.back tab_id], .ok r)
    rw [invoke, h]
  · intro h
    apply browser_action_ok_of_try
    show invoke m (.forward tab_id) = ([.forward tab_id], .ok r)
    rw [invoke, h]
  · intro c hc h
    apply browser_action_ok_of_try
    show _handle_interaction_actions m "click" (some c) text k tab_id =
      ([.click c tab_id], .ok r)
    rw [handle_click m c text k tab_id hc, invoke, h]
  · intro c hc h
    apply browser_action_ok_of_try
    show _handle_interaction_actions m "double_click" (some c) text k tab_id =
      ([.double_click c tab_id], .ok r)
    rw [handle_double_click m c text k tab_id hc, invoke, h]
  · intro c hc h
    apply browser_action_ok_of_try
    show _handle_interaction_actions m "hover" (some c) text k tab_id =
      ([.hover c tab_id], .ok r)
    rw [handle_hover m c text k tab_id hc, invoke, h]
  · intro h
    apply browser_action_ok_of_try
    show invoke m (.scroll "down" tab_id) = ([.scroll "down" tab_id], .ok r)
    rw [invoke, h]
  · intro h
    apply browser_action_ok_of_try
    show invoke m (.scroll "up" tab_id) = ([.scroll "up" tab_id], .ok r)
    rw [invoke, h]
  · intro t ht h
    apply browser_action_ok_of_try
    show _handle_interaction_actions m "type" coordinate (some t) k tab_id =
      ([.type_text t tab_id], .ok r)
    rw [handle_type m coordinate t k tab_id ht, invoke, h]
  · intro s hs h
    apply browser_action_ok_of_try
    show _handle_interaction_actions m "press_key" coordinate text (some s) tab_id =
      ([.press_key s tab_id], .ok r)
    rw [handle_press_key m coordinate text s tab_id hs, invoke, h]
  · intro h
    apply browser_action_ok_of_try
    show invoke m (.new_tab url) = ([.new_tab url], .ok r)
    rw [invoke, h]
  · intro t ht h
    apply browser_action_ok_of_try
    show _handle_tab_actions m "switch_tab" url (some t) = ([.switch_tab t], .ok r)
    rw [handle_switch_tab m url t ht, invoke, h]
  · intro t ht h
    apply browser_action_ok_of_try
    show _handle_tab_actions m "close_tab" url (some t) = ([.close_tab t], .ok r)
    rw [handle_close_tab m url t ht, invoke, h]
  · intro h
    apply browser_action_ok_of_try
    show invoke m .list_tabs = ([.list_tabs], .ok r)
    rw [invoke, h]
  · intro d h
    apply browser_action_ok_of_try
    show invoke m (.wait_browser d tab_id) = ([.wait_browser d tab_id], .ok r)
    rw [invoke, h]
  · intro j hj h
    apply browser_action_ok_of_try
    show _handle_utility_actions m "execute_js" duration (some j) file_path tab_id clear =
      ([.execute_js j tab_id], .ok r)
    rw [handle_execute_js m duration j file_path tab_id clear hj, invoke, h]
  · intro fp hfp h
    apply browser_action_ok_of_try
    show _handle_utility_actions m "save_pdf" duration js_code (some fp) tab_id clear =
      ([.save_pdf fp tab_id], .ok r)
    rw [handle_save_pdf m duration js_code fp tab_id clear hfp, invoke, h]
  · intro h
    apply browser_action_ok_of_try
    show invoke m (.get_console_logs tab_id clear) = ([.get_console_logs tab_id clear], .ok r)
    rw [invoke, h]
  · intro h
    apply browser_action_ok_of_try
    show invoke m (.view_source tab_id) = ([.view_source tab_id], .ok r)
    rw [invoke, h]
  · intro h
    apply browser_action_ok_of_try
    show invoke m .close_browser = ([.close_browser], .ok r)
    rw [invoke, h]
  · intro fp hfp h
    apply browser_action_ok_of_try
    rw [try_export_session m url coordinate text tab_id js_code duration k fp clear hfp,
      invoke, h]

/-- Witness for C3 at concrete inputs, including `wait` with duration 0. -/
theorem browser_action_dispatch_witness :
    browser_action (fun _ => .ok [("ok", .bool true)]) "wait"
        none none none (some "t") none (some 0) none none false =
      ([Call.wait_browser 0 (some "t")], .ok [("ok", .bool true)]) ∧
    browser_action (fun _ => .ok [("ok", .bool true)]) "goto"
        (some "http://x") none none none none none none none false =
      ([Call.goto_url "http://x" none], .ok [("ok", .bool true)]) ∧
    browser_action (fun _ => .ok [("ok", .bool true)]) "close"
        none none none none none none none none false =
      ([Call.close_browser], .ok [("ok", .bool true)]) :=
  ⟨(browser_action_dispatch (fun _ => .ok [("ok", .bool true)]) none none none (some "t")
      none (some 0) none none false [("ok", .bool true)]).2.2.2.2.2.2.2.2.2.2.2.2.2.2.2.1
      0 rfl,
   (browser_action_dispatch (fun _ => .ok [("ok", .bool true)]) (some "http://x") none none
      none none none none none false [("ok", .bool true)]).2.1
      "http://x" (by decide) rfl,
   (browser_action_dispatch (fun _ => .ok [("ok", .bool true)]) none none none none none
      none none none false [("ok", .bool true)]).2.2.2.2.2.2.2.2.2.2.2.2.2.2.2.2.2.2.2.2.1
      rfl⟩
